import Mathlib

/-!
# Verification of the OrangePlanManager authentication core

Shallow embedding of the auth/authorization core of the backend
(`src/backend/app`): password hashing and verification (passlib/bcrypt,
`utilities/encoders.py`), the JWT codec (`encode_token`/`decode_token`),
the password-strength validator, user lookup and authentication
(`utilities/dependencies.py`), the role checker (`RoleChecker`), and the
`auth` and `users` routers (`register`, `login`, `refresh`, `PATCH /users`).

Python exceptions are modelled with `Except`; the persistence store is a
`List User` passed explicitly; time and the signing key are explicit
parameters; bcrypt's random salt is an explicit parameter of hashing.
-/

deriving instance DecidableEq for Except

namespace OPM

/-- A FastAPI `HTTPException`: status code and detail message. -/
structure HTTPError where
  status : Nat
  detail : String
deriving DecidableEq, Repr

/-- `CREDENTIALS_EXCEPTION` from `utilities/exceptions.py`: 401. -/
def CREDENTIALS_EXCEPTION : HTTPError :=
  ⟨401, "Could not validate credentials"⟩

/-- `TOKEN_EXPIRE_EXCEPTION` from `utilities/exceptions.py`: 401 with a
distinct detail. -/
def TOKEN_EXPIRE_EXCEPTION : HTTPError :=
  ⟨401, "Token expired."⟩

/-- A Python exception surfaced by the core: either a FastAPI
`HTTPException`, or passlib's `UnknownHashError` (a `ValueError` raised by
`CryptContext.verify` when the stored hash matches no configured scheme). -/
inductive PyError where
  | http (e : HTTPError)
  | unknownHash
deriving DecidableEq, Repr

/-- `RoleType` (`models/user_models.py`) is a `str`-valued enum; membership
tests in `RoleChecker` compare by string value, so roles are modelled as
their string values. -/
def RoleType.ADMIN : String := "Administrateur"

/-- The `USER` member of the `RoleType` enum. -/
def RoleType.USER : String := "Utilisateur"

/-- The `TESTER` member of the `RoleType` enum. -/
def RoleType.TESTER : String := "Testeur"

/-- The `User` table model (`models/user_models.py`), restricted to the
fields the auth core reads or writes (timestamps omitted). -/
structure User where
  id : Nat
  username : String
  email : String
  first_name : Option String
  last_name : Option String
  hashed_password : String
  role : String
  is_active : Bool
deriving DecidableEq, Repr

/-! ## Password hasher (`utilities/encoders.py`, passlib bcrypt)

`pwd_context = CryptContext(schemes=["bcrypt"])`. A bcrypt hash is a
self-describing string `"$2b$12$" ++ salt ++ digest`; the digest is a
one-way function of salt and password. The digest itself is opaque to the
program, so it is modelled by a concrete executable mixing function; the
salt separator `"$"` makes the model's parse explicit. -/

/-- Decimal digits of a number, fuel-recursive so it reduces in the
kernel. -/
def natDigits : Nat → Nat → List Char
  | 0, _ => []
  | fuel + 1, n =>
    if n < 10 then [Char.ofNat (48 + n)]
    else natDigits fuel (n / 10) ++ [Char.ofNat (48 + n % 10)]

/-- Model of the bcrypt digest: an executable one-way mix of salt and
password (the program never inspects its structure). -/
def bcryptDigest (salt password : String) : Nat :=
  (salt ++ "/" ++ password).data.foldl
    (fun h c => (h * 31 + c.toNat) % 1000000007) 7

/-- The bcrypt format marker produced by passlib's default configuration. -/
def bcryptIdent : String := "$2b$12$"

/-- `hash_password(password)` with the random salt made explicit:
produces the self-describing salted hash string. -/
def hash_password (salt password : String) : String :=
  bcryptIdent ++ salt ++ "$" ++
    ⟨natDigits (bcryptDigest salt password + 1) (bcryptDigest salt password)⟩

/-- Strips `pre` off the front of `s`; `none` when `pre` is not an initial
segment. -/
def stripPrefixChars : List Char → List Char → Option (List Char)
  | [], s => some s
  | _ :: _, [] => none
  | p :: ps, c :: cs => if p = c then stripPrefixChars ps cs else none

/-- Splits a character list on `'$'`. -/
def splitOnDollar : List Char → List (List Char)
  | [] => [[]]
  | c :: cs =>
    if c = '$' then [] :: splitOnDollar cs
    else
      match splitOnDollar cs with
      | [] => [[c]]
      | h :: t => (c :: h) :: t

/-- Parses a hash string as `"$2b$12$" ++ salt ++ "$" ++ digest`
(`none` when it is not of that shape): the identify/parse step of
passlib's bcrypt handler. -/
def parseBcrypt (hashed : String) : Option (String × String) :=
  match stripPrefixChars bcryptIdent.data hashed.data with
  | none => none
  | some rest =>
    match splitOnDollar rest with
    | [salt, digest] => some (⟨salt⟩, ⟨digest⟩)
    | _ => none

/-- A hash string is well-formed when the bcrypt handler can parse it. -/
def bcryptWellFormed (hashed : String) : Bool :=
  (parseBcrypt hashed).isSome

/-- `verify_password(plain_password, hashed_password)` =
`pwd_context.verify(...)`. passlib first identifies the hash against the
configured schemes; an unidentifiable or malformed hash raises
`UnknownHashError` (it does not return `False`). On a well-formed hash it
recomputes the digest from the embedded salt and compares. -/
def verify_password (plain hashed : String) : Except PyError Bool :=
  match parseBcrypt hashed with
  | some (salt, _) => .ok (hash_password salt plain == hashed)
  | none => .error .unknownHash

/-! ## Credential validator (`validate_password`, `utilities/dependencies.py`) -/

/-- `re.search(r'[A-Z]', p)`: the password contains an ASCII uppercase
letter. -/
def hasUpper (p : String) : Bool := p.data.any (fun c => 'A' ≤ c && c ≤ 'Z')

/-- `re.search(r'[a-z]', p)`: the password contains an ASCII lowercase
letter. -/
def hasLower (p : String) : Bool := p.data.any (fun c => 'a' ≤ c && c ≤ 'z')

/-- `re.search(r'[0-9]', p)`: the password contains a digit. -/
def hasDigit (p : String) : Bool := p.data.any (fun c => '0' ≤ c && c ≤ '9')

/-- `re.search(r'[@$!%*?&#]', p)`: the password contains a character of
the special set. -/
def hasSpecial (p : String) : Bool := p.data.any (fun c => "@$!%*?&#".data.contains c)

/-- Error message of the length rule. -/
def MSG_LEN : String := "Password must be at least 6 characters long."

/-- Error message of the uppercase rule. -/
def MSG_UPPER : String := "Password must contain at least one uppercase letter."

/-- Error message of the lowercase rule. -/
def MSG_LOWER : String := "Password must contain at least one lowercase letter."

/-- Error message of the digit rule. -/
def MSG_DIGIT : String := "Password must contain at least one number."

/-- Error message of the special-character rule. -/
def MSG_SPECIAL : String := "Password must contain at least one special character."

/-- `validate_password(password)`: walks the rule list in order and raises
HTTP 400 with the first failing rule's message. -/
def validate_password (p : String) : Except PyError Unit :=
  if ¬ (p.length ≥ 6) then .error (.http ⟨400, MSG_LEN⟩)
  else if ¬ hasUpper p then .error (.http ⟨400, MSG_UPPER⟩)
  else if ¬ hasLower p then .error (.http ⟨400, MSG_LOWER⟩)
  else if ¬ hasDigit p then .error (.http ⟨400, MSG_DIGIT⟩)
  else if ¬ hasSpecial p then .error (.http ⟨400, MSG_SPECIAL⟩)
  else .ok ()

/-! ## Role checker (`RoleChecker.__call__`, `utilities/dependencies.py`) -/

/-- `RoleChecker(allowed_roles).__call__(user)`: returns the user when
`user.role in allowed_roles or "*" in allowed_roles`, else raises HTTP 403. -/
def check_role (allowed_roles : List String) (user : User) : Except PyError User :=
  if allowed_roles.contains user.role || allowed_roles.contains "*" then
    .ok user
  else
    .error (.http ⟨403, "You don't have enough permissions"⟩)

/-! ## Token codec (`utilities/encoders.py`, PyJWT HS256)

`encode_token` stamps an absolute expiry into the claim dict and signs it
with the process-wide secret; `decode_token` verifies signature then
expiry.  The wire form of a token is modelled by `TokenWire`: a signed
claim set, a structurally malformed string, or a token using an
unsupported algorithm. -/

/-- The claim sets this program encodes: a subject, an optional role
claim, and the absolute expiry timestamp (seconds). -/
structure Claims where
  sub : String
  role : Option String
  exp : Int
deriving DecidableEq, Repr

/-- Model of the HMAC-SHA256 signature over the serialized claims with the
secret key (an executable mix; the program treats it as opaque). -/
def signFn (key : Nat) (c : Claims) : Nat :=
  ((c.sub ++ "|" ++ (c.role.getD "-")).data.foldl
    (fun h ch => (h * 37 + ch.toNat) % 998244353) (key + c.exp.natAbs + 3))

/-- A token string as PyJWT's verifier sees it: a signed claim set, a
string that is not a well-formed JWT at all, or a JWT whose header names
an algorithm outside `algorithms=["HS256"]`. -/
inductive TokenWire where
  | signed (payload : Claims) (sig : Nat)
  | malformed (s : String)
  | badAlg (payload : Claims) (sig : Nat)
deriving DecidableEq, Repr

/-- `encode_token(data, expires_delta)`: copies the claims, sets
`exp = now + expires_delta`, and signs with the secret key. -/
def encode_token (key : Nat) (now : Int) (sub : String) (role : Option String)
    (expires_delta : Int) : TokenWire :=
  let c : Claims := ⟨sub, role, now + expires_delta⟩
  .signed c (signFn key c)

/-- The two PyJWT exception classes `decode_token` distinguishes:
`ExpiredSignatureError` and every other `InvalidTokenError` (bad
signature, malformed structure, unsupported algorithm). -/
inductive JwtError where
  | expired
  | invalid
deriving DecidableEq, Repr

/-- `jwt.decode(token, SECRET_KEY, algorithms=[ALGORITHM])`: rejects
malformed structure and unsupported algorithms, verifies the signature,
then checks the `exp` claim against the current time (PyJWT raises
`ExpiredSignatureError` when `exp <= now`). -/
def jwt_decode (key : Nat) (now : Int) : TokenWire → Except JwtError Claims
  | .malformed _ => .error .invalid
  | .badAlg _ _ => .error .invalid
  | .signed c sig =>
    if sig ≠ signFn key c then .error .invalid
    else if c.exp ≤ now then .error .expired
    else .ok c

/-- `decode_token(token)`: maps `ExpiredSignatureError` to
`TOKEN_EXPIRE_EXCEPTION` and any other `InvalidTokenError` to
`CREDENTIALS_EXCEPTION`. -/
def decode_token (key : Nat) (now : Int) (token : TokenWire) : Except PyError Claims :=
  match jwt_decode key now token with
  | .ok payload => .ok payload
  | .error .expired => .error (.http TOKEN_EXPIRE_EXCEPTION)
  | .error .invalid => .error (.http CREDENTIALS_EXCEPTION)

/-! ## User directory (`utilities/dependencies.py`) over the store -/

/-- The persistence store: the rows of the `user` table. -/
abbrev Store := List User

/-- `get_user(username, session)`: first row with that username, HTTP 404
when absent. -/
def get_user (username : String) (store : Store) : Except PyError User :=
  match store.find? (fun u => u.username == username) with
  | some u => .ok u
  | none => .error (.http ⟨404, "User not found"⟩)

/-- `ACCESS_TOKEN_EXPIRE_MINUTES` as seconds. -/
def ACCESS_TTL : Int := 15 * 60

/-- `REFRESH_TOKEN_EXPIRE_DAYS` as seconds. -/
def REFRESH_TTL : Int := 7 * 24 * 60 * 60

/-- `authenticate_user` with its imported `verify_password` dependency
made a parameter (so that non-use of the verifier on a given path is
provable): look up the user (404 if absent), raise HTTP 423 when
`is_active` is false, then verify the password and raise
`CREDENTIALS_EXCEPTION` on mismatch. -/
def authenticate_user_core (verify : String → String → Except PyError Bool)
    (username password : String) (store : Store) : Except PyError User := do
  let user ← get_user username store
  if ¬ user.is_active then
    .error (.http ⟨423, "Inactive user."⟩)
  else do
    let ok ← verify password user.hashed_password
    if ¬ ok then .error (.http CREDENTIALS_EXCEPTION)
    else .ok user

/-- `authenticate_user(username, password, session)` as the source
composes it. -/
def authenticate_user (username password : String) (store : Store) : Except PyError User :=
  authenticate_user_core verify_password username password store

/-! ## Auth router (`routers/auth.py`) -/

/-- Modelled from the spec: the `Token` response schema
(`app/schemas/auth_schemas.py` is not in the provided sources) — the
login/refresh response `{access_token, refresh_token, token_type}`. -/
structure Token where
  access_token : TokenWire
  refresh_token : TokenWire
  token_type : String
deriving DecidableEq, Repr

/-- `POST /auth/login` (`login_for_access_token`): authenticate, then
issue an access token with claims `{sub, role}` and a refresh token with
claims `{sub}` only. -/
def login_for_access_token (key : Nat) (now : Int) (username password : String)
    (store : Store) : Except PyError Token := do
  let user ← authenticate_user username password store
  let access_token := encode_token key now user.username (some user.role) ACCESS_TTL
  let refresh_token := encode_token key now user.username none REFRESH_TTL
  .ok ⟨access_token, refresh_token, "bearer"⟩

/-- `POST /auth/refresh` (`refresh_token`): decode the refresh token, then
`get_user(payload.get("sub"), session)` — which itself raises HTTP 404
when the subject names no user, so the router's own
`if not user: raise 401` branch is unreachable — then issue a fresh pair
from the user's current record. -/
def refresh_endpoint (key : Nat) (now : Int) (refresh : TokenWire)
    (store : Store) : Except PyError Token := do
  let payload ← decode_token key now refresh
  let user ← get_user payload.sub store
  let access_token := encode_token key now user.username (some user.role) ACCESS_TTL
  let refresh_token := encode_token key now user.username none REFRESH_TTL
  .ok ⟨access_token, refresh_token, "bearer"⟩

/-- The `UserCreate` request schema (`models/user_models.py`). -/
structure UserCreate where
  username : String
  email : String
  first_name : Option String
  last_name : Option String
  password : String
deriving DecidableEq, Repr

/-- `POST /auth/register` (`create_user` in `routers/auth.py`): reject a
duplicate username then a duplicate email with HTTP 409, validate the
password, hash it, and append the new row (role defaults to `USER`,
`is_active` defaults to true; the id is assigned by the database, modelled
as one past the largest id in the store).  The returned store is the
post-commit table; on any raise the store is untouched. -/
def create_user (salt : String) (uc : UserCreate) (store : Store) :
    Except PyError (User × Store) := do
  if (store.find? (fun u => u.username == uc.username)).isSome then
    .error (.http ⟨409, "L'utilisateur existe dejas."⟩)
  else if (store.find? (fun u => u.email == uc.email)).isSome then
    .error (.http ⟨409, "l'Email est deja utilise."⟩)
  else do
    validate_password uc.password
    let hashed_password := hash_password salt uc.password
    let user_db : User :=
      { id := (store.map User.id).foldl max 0 + 1
        username := uc.username
        email := uc.email
        first_name := uc.first_name
        last_name := uc.last_name
        hashed_password := hashed_password
        role := RoleType.USER
        is_active := true }
    .ok (user_db, store ++ [user_db])

/-- The table as it stands after a registration attempt: unchanged when
`create_user` raised, the committed table otherwise. -/
def register_store (salt : String) (uc : UserCreate) (store : Store) : Store :=
  match create_user salt uc store with
  | .ok (_, store') => store'
  | .error _ => store

/-! ## Users router (`routers/users.py`) -/

/-- `get_user_by_id(session, user_id)`: `session.get(User, user_id)`,
HTTP 404 when absent. -/
def get_user_by_id (user_id : Nat) (store : Store) : Except PyError User :=
  match store.find? (fun u => u.id == user_id) with
  | some u => .ok u
  | none => .error (.http ⟨404, "User not found."⟩)

/-- The `UserUpdate` request schema (`models/user_models.py`): every field
optional; `none` models a field absent from the request body
(`model_dump(exclude_unset=True)` drops it). -/
structure UserUpdate where
  username : Option String := none
  email : Option String := none
  first_name : Option String := none
  last_name : Option String := none
  old_password : Option String := none
  new_password : Option String := none
  is_active : Option Bool := none
  role : Option String := none
deriving DecidableEq, Repr

/-- Python truthiness of `dict.get(key)` for an optional string field:
false for an absent key, for `None`, and for the empty string. -/
def pyTruthy : Option String → Bool
  | some s => s ≠ ""
  | none => false

/-- `user.sqlmodel_update(user_update_data)` restricted to the columns of
the `user` table: each present field overwrites the row's column;
`hashed` is the `hashed_password` entry the router may have added to the
dict. -/
def sqlmodel_update (u : User) (d : UserUpdate) (hashed : Option String) : User :=
  { u with
    username := d.username.getD u.username
    email := d.email.getD u.email
    first_name := (d.first_name.map some).getD u.first_name
    last_name := (d.last_name.map some).getD u.last_name
    is_active := d.is_active.getD u.is_active
    role := d.role.getD u.role
    hashed_password := hashed.getD u.hashed_password }

/-- `PATCH /users/{user_id}` (`update_user` in `routers/users.py`): fetch
the row (404 if absent); when `old_password` and `new_password` are both
truthy, verify the old password against the stored hash — on match add
`hashed_password = hash_password(new_password)` to the update dict, on
mismatch raise `CREDENTIALS_EXCEPTION`; then apply the dict to the row
and commit.  No password-strength validation is performed on this path. -/
def update_user (salt : String) (user_id : Nat) (d : UserUpdate)
    (store : Store) : Except PyError (User × Store) := do
  let user ← get_user_by_id user_id store
  let hashed ←
    if pyTruthy d.old_password && pyTruthy d.new_password then do
      let ok ← verify_password (d.old_password.getD "") user.hashed_password
      if ok then pure (some (hash_password salt (d.new_password.getD "")))
      else .error (.http CREDENTIALS_EXCEPTION)
    else
      pure (none : Option String)
  let user' := sqlmodel_update user d hashed
  .ok (user', store.map (fun u => if u.id == user_id then user' else u))

/-! ## Sample data shared by concrete witnesses -/

/-- A sample admin account whose password is `"OldP@ss1"`. -/
def alice : User :=
  { id := 1
    username := "alice"
    email := "alice@example.com"
    first_name := none
    last_name := none
    hashed_password := hash_password "salt" "OldP@ss1"
    role := RoleType.ADMIN
    is_active := true }

/-- A sample non-admin account. -/
def bob : User :=
  { id := 2
    username := "bob"
    email := "bob@example.com"
    first_name := none
    last_name := none
    hashed_password := hash_password "s3" "B0b@pass"
    role := RoleType.USER
    is_active := true }

/-- The forbidden error raised by `RoleChecker`. -/
def FORBIDDEN : HTTPError := ⟨403, "You don't have enough permissions"⟩

/-- The locked error raised by `authenticate_user` for an inactive account. -/
def LOCKED : HTTPError := ⟨423, "Inactive user."⟩

/-! ## Theorems -/

/-- C7: `validate_password` succeeds exactly when all five rules hold
(length ≥ 6, an uppercase letter, a lowercase letter, a digit, a special
character); the rules are checked in that fixed order, the first violated
rule's message is the one surfaced, and `"abc"` fails with the length
rule's message. -/
theorem validate_password_spec :
    (∀ p, validate_password p = .ok () ↔
      (p.length ≥ 6 ∧ hasUpper p = true ∧ hasLower p = true ∧
        hasDigit p = true ∧ hasSpecial p = true)) ∧
    (∀ p, p.length < 6 →
      validate_password p = .error (.http ⟨400, MSG_LEN⟩)) ∧
    (∀ p, p.length ≥ 6 → hasUpper p = false →
      validate_password p = .error (.http ⟨400, MSG_UPPER⟩)) ∧
    (∀ p, p.length ≥ 6 → hasUpper p = true → hasLower p = false →
      validate_password p = .error (.http ⟨400, MSG_LOWER⟩)) ∧
    (∀ p, p.length ≥ 6 → hasUpper p = true → hasLower p = true →
      hasDigit p = false →
      validate_password p = .error (.http ⟨400, MSG_DIGIT⟩)) ∧
    (∀ p, p.length ≥ 6 → hasUpper p = true → hasLower p = true →
      hasDigit p = true → hasSpecial p = false →
      validate_password p = .error (.http ⟨400, MSG_SPECIAL⟩)) ∧
    validate_password "abc" = .error (.http ⟨400, MSG_LEN⟩) := by
  refine ⟨fun p => ?_, fun p h => ?_, fun p h1 h2 => ?_, fun p h1 h2 h3 => ?_,
    fun p h1 h2 h3 h4 => ?_, fun p h1 h2 h3 h4 h5 => ?_, by decide⟩ <;>
  · unfold validate_password
    split_ifs <;> simp_all <;> omega

/-- Closed instance of C7's theorem at concrete inputs. -/
theorem validate_password_spec_witness :
    validate_password "Ab1@xy" = .ok () ∧
    validate_password "abcdef" = .error (.http ⟨400, MSG_UPPER⟩) :=
  ⟨(validate_password_spec.1 "Ab1@xy").mpr (by decide),
   validate_password_spec.2.2.1 "abcdef" (by decide) (by decide)⟩

/-- C6: `check_role` returns the identity unchanged exactly when its role
is in the allowed list or the list contains `"*"`; otherwise it fails with
HTTP 403 Forbidden.  `["*"]` admits every role and `[ADMIN]` rejects a
`USER`-role identity. -/
theorem check_role_spec :
    (∀ allowed u, check_role allowed u = .ok u ↔
      (u.role ∈ allowed ∨ "*" ∈ allowed)) ∧
    (∀ allowed u, ¬ (u.role ∈ allowed ∨ "*" ∈ allowed) →
      check_role allowed u = .error (.http FORBIDDEN)) ∧
    (∀ u, check_role ["*"] u = .ok u) ∧
    (∀ u, u.role = RoleType.USER →
      check_role [RoleType.ADMIN] u = .error (.http FORBIDDEN)) := by
  refine ⟨fun allowed u => ?_, fun allowed u h => ?_, fun u => ?_, fun u h => ?_⟩ <;>
  · unfold check_role
    split_ifs <;> simp_all [FORBIDDEN, RoleType.USER, RoleType.ADMIN]

/-- Closed instance of C6's theorem at concrete inputs. -/
theorem check_role_spec_witness :
    check_role [RoleType.ADMIN] bob = .error (.http FORBIDDEN) ∧
    check_role ["*"] bob = .ok bob :=
  ⟨check_role_spec.2.2.2 bob rfl, check_role_spec.2.2.1 bob⟩

/-- C4: authenticating as an existing but inactive user fails with the
423 Locked error for every submitted password — and for every possible
password verifier, so no password verification influences the outcome:
the inactive-account check precedes the password check and the result is
never `CREDENTIALS_EXCEPTION`. -/
theorem authenticate_inactive_locked :
    ∀ (verify : String → String → Except PyError Bool)
      (username password : String) (store : Store) (u : User),
      store.find? (fun v => v.username == username) = some u →
      u.is_active = false →
      authenticate_user_core verify username password store = .error (.http LOCKED) ∧
      authenticate_user username password store = .error (.http LOCKED) := by
  intro verify username password store u hfind hinact
  constructor <;>
    simp [authenticate_user, authenticate_user_core, get_user, hfind, hinact, LOCKED,
      Bind.bind, Except.bind]

/-- Closed instance of C4's theorem: an inactive account with any of two
passwords (one correct, one wrong) yields Locked either way. -/
theorem authenticate_inactive_locked_witness :
    authenticate_user "carol" "OldP@ss1" [{alice with username := "carol", is_active := false}]
      = .error (.http LOCKED) ∧
    authenticate_user "carol" "wrongpw" [{alice with username := "carol", is_active := false}]
      = .error (.http LOCKED) :=
  ⟨(authenticate_inactive_locked verify_password "carol" "OldP@ss1"
      [{alice with username := "carol", is_active := false}]
      {alice with username := "carol", is_active := false}
      (by decide) (by decide)).2,
   (authenticate_inactive_locked verify_password "carol" "wrongpw"
      [{alice with username := "carol", is_active := false}]
      {alice with username := "carol", is_active := false}
      (by decide) (by decide)).2⟩

/-- C8: `decode_token` fails with the expiry error exactly when the token
is validly signed but its embedded expiry has passed; a malformed token,
an unsupported algorithm, and a bad signature all fail with
`CREDENTIALS_EXCEPTION`; every failure is one of the two errors, and the
two are distinguishable. -/
theorem decode_token_spec :
    (∀ (key : Nat) (now : Int) (t : TokenWire),
      decode_token key now t = .error (.http TOKEN_EXPIRE_EXCEPTION) ↔
        ∃ c, t = TokenWire.signed c (signFn key c) ∧ c.exp ≤ now) ∧
    (∀ (key : Nat) (now : Int) (s : String),
      decode_token key now (.malformed s) = .error (.http CREDENTIALS_EXCEPTION)) ∧
    (∀ (key : Nat) (now : Int) (c : Claims) (sig : Nat),
      decode_token key now (.badAlg c sig) = .error (.http CREDENTIALS_EXCEPTION)) ∧
    (∀ (key : Nat) (now : Int) (c : Claims) (sig : Nat), sig ≠ signFn key c →
      decode_token key now (.signed c sig) = .error (.http CREDENTIALS_EXCEPTION)) ∧
    (∀ (key : Nat) (now : Int) (t : TokenWire) (e : PyError),
      decode_token key now t = .error e →
        e = .http TOKEN_EXPIRE_EXCEPTION ∨ e = .http CREDENTIALS_EXCEPTION) ∧
    PyError.http TOKEN_EXPIRE_EXCEPTION ≠ PyError.http CREDENTIALS_EXCEPTION := by
  refine ⟨fun key now t => ?_, fun key now s => rfl, fun key now c sig => rfl,
    fun key now c sig h => ?_, fun key now t e h => ?_, by decide⟩
  · cases t <;>
      simp [decode_token, jwt_decode, TOKEN_EXPIRE_EXCEPTION, CREDENTIALS_EXCEPTION] <;>
      split_ifs <;>
      simp_all [TOKEN_EXPIRE_EXCEPTION, CREDENTIALS_EXCEPTION]
    exact ⟨_, ⟨rfl, rfl⟩, by assumption⟩
  · simp [decode_token, jwt_decode, h]
  · cases t <;> simp_all [decode_token, jwt_decode] <;> split_ifs at h <;> simp_all

/-- Closed instance of C8's theorem: an expired but validly signed token
yields the expiry error, and a tampered signature yields the credentials
error. -/
theorem decode_token_spec_witness :
    decode_token 5 1000 (.signed ⟨"alice", none, 900⟩ (signFn 5 ⟨"alice", none, 900⟩))
      = .error (.http TOKEN_EXPIRE_EXCEPTION) ∧
    decode_token 5 1000 (.signed ⟨"alice", none, 2000⟩ (signFn 5 ⟨"alice", none, 2000⟩ + 1))
      = .error (.http CREDENTIALS_EXCEPTION) :=
  ⟨(decode_token_spec.1 5 1000 _).mpr ⟨⟨"alice", none, 900⟩, rfl, by decide⟩,
   decode_token_spec.2.2.2.1 5 1000 ⟨"alice", none, 2000⟩ _ (by decide)⟩

/-- C5: the refresh token issued at login carries only the subject claim
(its role claim is absent), and every successful refresh issues an access
token whose embedded role is the role currently stored for the user that
the refresh token's subject resolves to — for every store, hence also
when that role differs from the role at original login. -/
theorem refresh_role_current :
    (∀ (key : Nat) (now : Int) (username password : String) (store : Store) (tok : Token),
      login_for_access_token key now username password store = .ok tok →
      ∃ c sig, tok.refresh_token = TokenWire.signed c sig ∧ c.role = none) ∧
    (∀ (key : Nat) (now : Int) (refresh : TokenWire) (store : Store) (tok : Token),
      refresh_endpoint key now refresh store = .ok tok →
      ∃ payload u,
        decode_token key now refresh = .ok payload ∧
        get_user payload.sub store = .ok u ∧
        tok.access_token =
          TokenWire.signed ⟨u.username, some u.role, now + ACCESS_TTL⟩
            (signFn key ⟨u.username, some u.role, now + ACCESS_TTL⟩)) := by
  constructor
  · intro key now username password store tok h
    unfold login_for_access_token at h
    cases h1 : authenticate_user username password store with
    | error e => rw [h1] at h; simp [Bind.bind, Except.bind] at h
    | ok u =>
      rw [h1] at h
      simp only [Bind.bind, Except.bind, Except.ok.injEq] at h
      exact ⟨_, _, by rw [← h]; rfl, rfl⟩
  · intro key now refresh store tok h
    unfold refresh_endpoint at h
    cases h1 : decode_token key now refresh with
    | error e => rw [h1] at h; simp [Bind.bind, Except.bind] at h
    | ok payload =>
      rw [h1] at h
      simp only [Bind.bind, Except.bind] at h
      cases h2 : get_user payload.sub store with
      | error e => rw [h2] at h; simp [Bind.bind, Except.bind] at h
      | ok u =>
        rw [h2] at h
        simp only [Bind.bind, Except.bind, Except.ok.injEq] at h
        exact ⟨payload, u, rfl, h2, by rw [← h]; rfl⟩

/-- Closed instance of C5's theorem: logging in while `alice` is an admin
yields a role-free refresh token; refreshing that token after her stored
role changed to `USER` yields an access token embedding role `USER`. -/
theorem refresh_role_current_witness :
    (∃ c sig,
      (Token.mk
        (encode_token 5 1000 "alice" (some RoleType.ADMIN) ACCESS_TTL)
        (encode_token 5 1000 "alice" none REFRESH_TTL) "bearer").refresh_token
          = TokenWire.signed c sig ∧ c.role = none) ∧
    (∃ payload u,
      decode_token 5 2000 (encode_token 5 1000 "alice" none REFRESH_TTL) = .ok payload ∧
      get_user payload.sub [{alice with role := RoleType.USER}] = .ok u ∧
      (Token.mk
        (encode_token 5 2000 "alice" (some RoleType.USER) ACCESS_TTL)
        (encode_token 5 2000 "alice" none REFRESH_TTL) "bearer").access_token
          = TokenWire.signed ⟨u.username, some u.role, 2000 + ACCESS_TTL⟩
              (signFn 5 ⟨u.username, some u.role, 2000 + ACCESS_TTL⟩)) :=
  ⟨refresh_role_current.1 5 1000 "alice" "OldP@ss1" [alice]
      (Token.mk
        (encode_token 5 1000 "alice" (some RoleType.ADMIN) ACCESS_TTL)
        (encode_token 5 1000 "alice" none REFRESH_TTL) "bearer")
      (by decide),
   refresh_role_current.2 5 2000 (encode_token 5 1000 "alice" none REFRESH_TTL)
      [{alice with role := RoleType.USER}]
      (Token.mk
        (encode_token 5 2000 "alice" (some RoleType.USER) ACCESS_TTL)
        (encode_token 5 2000 "alice" none REFRESH_TTL) "bearer")
      (by decide)⟩

/-- Stripping a list off the front of its own append. -/
theorem stripPrefixChars_append (p s : List Char) :
    stripPrefixChars p (p ++ s) = some s := by
  induction p with
  | nil => rfl
  | cons c cs ih => simp [stripPrefixChars, ih]

/-- A dollar-free list splits to itself. -/
theorem splitOnDollar_no_dollar (l : List Char) (h : '$' ∉ l) :
    splitOnDollar l = [l] := by
  induction l with
  | nil => rfl
  | cons c cs ih =>
    simp only [List.mem_cons, not_or] at h
    simp [splitOnDollar, Ne.symm h.1, ih h.2]

/-- Splitting around a single separating dollar. -/
theorem splitOnDollar_append (a b : List Char) (ha : '$' ∉ a) (hb : '$' ∉ b) :
    splitOnDollar (a ++ '$' :: b) = [a, b] := by
  induction a with
  | nil => simp [splitOnDollar, splitOnDollar_no_dollar b hb]
  | cons c cs ih =>
    simp only [List.mem_cons, not_or] at ha
    simp [splitOnDollar, Ne.symm ha.1, ih ha.2]

/-- The decimal digits of a number never contain a dollar sign. -/
theorem natDigits_no_dollar (fuel n : Nat) : '$' ∉ natDigits fuel n := by
  induction fuel generalizing n with
  | zero => simp [natDigits]
  | succ fuel ih =>
    have h10 : ∀ k : Nat, k < 10 → Char.ofNat (48 + k) ≠ '$' := by decide
    unfold natDigits
    split
    · simpa using Ne.symm (h10 n (by omega))
    · simpa using ⟨ih (n / 10), Ne.symm (h10 (n % 10) (Nat.mod_lt _ (by omega)))⟩

/-- A hash produced with a dollar-free salt parses back to that salt and
its digest. -/
theorem parseBcrypt_hash_password (salt p : String) (h : '$' ∉ salt.data) :
    parseBcrypt (hash_password salt p) =
      some (salt, ⟨natDigits (bcryptDigest salt p + 1) (bcryptDigest salt p)⟩) := by
  have hd : (hash_password salt p).data =
      bcryptIdent.data ++ (salt.data ++ '$' ::
        natDigits (bcryptDigest salt p + 1) (bcryptDigest salt p)) := by
    simp [hash_password, String.data_append]
  unfold parseBcrypt
  rw [hd, stripPrefixChars_append]
  dsimp only
  rw [splitOnDollar_append _ _ h (natDigits_no_dollar _ _)]

/-- C2 counterexample: on the malformed hash string `"nothash"`,
`verify_password` raises passlib's `UnknownHashError` — it neither
returns `false` nor any other boolean. -/
theorem verify_password_malformed_counterexample :
    verify_password "password" "nothash" = .error .unknownHash ∧
    verify_password "password" "nothash" ≠ .ok false := by decide

/-- C2 amended: for every plaintext, `verify_password` returns a boolean
on every well-formed salted hash string — in particular `true` on the
hash of the same plaintext under a dollar-free salt — but on a malformed
hash string it raises `UnknownHashError` instead of returning `false`. -/
theorem verify_password_amended :
    (∀ plain hashed, bcryptWellFormed hashed = true →
      ∃ b, verify_password plain hashed = .ok b) ∧
    (∀ plain hashed, bcryptWellFormed hashed = false →
      verify_password plain hashed = .error .unknownHash) ∧
    (∀ salt p, '$' ∉ salt.data →
      verify_password p (hash_password salt p) = .ok true) := by
  refine ⟨fun plain hashed h => ?_, fun plain hashed h => ?_, fun salt p h => ?_⟩
  · unfold bcryptWellFormed at h
    unfold verify_password
    cases hp : parseBcrypt hashed with
    | none => rw [hp] at h; simp at h
    | some sd =>
      obtain ⟨s1, s2⟩ := sd
      exact ⟨_, rfl⟩
  · unfold bcryptWellFormed at h
    unfold verify_password
    cases hp : parseBcrypt hashed with
    | none => rfl
    | some sd => rw [hp] at h; simp at h
  · unfold verify_password
    rw [parseBcrypt_hash_password salt p h]
    simp

/-- Closed instance of C2's amended theorem at concrete inputs. -/
theorem verify_password_amended_witness :
    (∃ b, verify_password "x" (hash_password "salt" "OldP@ss1") = .ok b) ∧
    verify_password "x" "nothash" = .error .unknownHash ∧
    verify_password "OldP@ss1" (hash_password "salt" "OldP@ss1") = .ok true :=
  ⟨verify_password_amended.1 "x" (hash_password "salt" "OldP@ss1") (by decide),
   verify_password_amended.2.1 "x" "nothash" (by decide),
   verify_password_amended.2.2 "salt" "OldP@ss1" (by decide)⟩

/-- C9: registration with a username or email already present in the
store fails with HTTP 409 Conflict, and the table after the attempt is
exactly the table before it — no record is created and no existing record
changes. -/
theorem register_conflict_atomic :
    ∀ (salt : String) (uc : UserCreate) (store : Store),
      ((∃ u ∈ store, u.username = uc.username) ∨ (∃ u ∈ store, u.email = uc.email)) →
      (∃ detail, create_user salt uc store = .error (.http ⟨409, detail⟩)) ∧
      register_store salt uc store = store := by
  intro salt uc store h
  have main : ∃ detail, create_user salt uc store = .error (.http ⟨409, detail⟩) := by
    cases hf : store.find? (fun v => v.username == uc.username) with
    | some u =>
      exact ⟨"L'utilisateur existe dejas.", by unfold create_user; rw [hf]; rfl⟩
    | none =>
      cases h with
      | inl hu =>
        obtain ⟨u, hm, he⟩ := hu
        have := List.find?_eq_none.mp hf u hm
        simp [he] at this
      | inr he =>
        obtain ⟨u, hm, hemail⟩ := he
        have h2 : (store.find? (fun v => v.email == uc.email)).isSome := by
          rw [List.find?_isSome]
          exact ⟨u, hm, by simp [hemail]⟩
        cases hf2 : store.find? (fun v => v.email == uc.email) with
        | none => rw [hf2] at h2; simp at h2
        | some v =>
          exact ⟨"l'Email est deja utilise.", by unfold create_user; rw [hf, hf2]; rfl⟩
  obtain ⟨detail, hd⟩ := main
  exact ⟨⟨detail, hd⟩, by unfold register_store; rw [hd]⟩

/-- Closed instance of C9's theorem: registering a second `"alice"` is a
409 conflict and leaves the store identical. -/
theorem register_conflict_atomic_witness :
    (∃ detail,
      create_user "s9" ⟨"alice", "new@example.com", none, none, "Xy1@ab"⟩ [alice] =
        .error (.http ⟨409, detail⟩)) ∧
    register_store "s9" ⟨"alice", "new@example.com", none, none, "Xy1@ab"⟩ [alice] = [alice] :=
  register_conflict_atomic "s9" ⟨"alice", "new@example.com", none, none, "Xy1@ab"⟩ [alice]
    (Or.inl ⟨alice, by decide, by decide⟩)

/-- C10: a PATCH whose body supplies only one of `old_password` /
`new_password` (in Python truthiness, so absent, `None` and `""` all
count as missing) completes without error, applies every other supplied
field via `sqlmodel_update`, and leaves the stored `hashed_password`
unchanged: the one-sided password change is silently skipped. -/
theorem update_one_sided_password_skipped :
    ∀ (salt : String) (user_id : Nat) (d : UserUpdate) (store : Store) (u : User),
      store.find? (fun v => v.id == user_id) = some u →
      ((pyTruthy d.new_password = true ∧ pyTruthy d.old_password = false) ∨
       (pyTruthy d.old_password = true ∧ pyTruthy d.new_password = false)) →
      update_user salt user_id d store =
        .ok (sqlmodel_update u d none,
          store.map (fun v => if v.id == user_id then sqlmodel_update u d none else v)) ∧
      (sqlmodel_update u d none).hashed_password = u.hashed_password := by
  intro salt user_id d store u hfind hcase
  have hcond : (pyTruthy d.old_password && pyTruthy d.new_password) = false := by
    rcases hcase with ⟨h1, h2⟩ | ⟨h1, h2⟩ <;> simp [h1, h2]
  refine ⟨?_, by simp [sqlmodel_update]⟩
  simp [update_user, get_user_by_id, hfind, hcond, Bind.bind, Except.bind, pure, Except.pure]

/-- Closed instance of C10's theorem: a PATCH with `new_password` but no
`old_password` changes the email and keeps the stored hash. -/
theorem update_one_sided_password_skipped_witness :
    update_user "s5" 1 { email := some "a2@example.com", new_password := some "N3w@pass" } [alice] =
      .ok ({alice with email := "a2@example.com"}, [{alice with email := "a2@example.com"}]) ∧
    ({alice with email := "a2@example.com"} : User).hashed_password = alice.hashed_password := by
  have h := update_one_sided_password_skipped "s5" 1
    { email := some "a2@example.com", new_password := some "N3w@pass" } [alice] alice
    (by decide) (Or.inl ⟨by decide, by decide⟩)
  exact ⟨by rw [h.1]; rfl, by decide⟩

/-- C1 (divergence evidence): a PATCH carrying the correct old password
and the weak new password `"abc"` — which `validate_password` rejects
with the length message — is accepted by `update_user`, which stores the
hash of `"abc"` (changing the stored hash) instead of failing with a
WeakPassword validation error: `update_user` never re-applies the
password-strength policy. -/
theorem update_user_skips_strength_validation :
    validate_password "abc" = .error (.http ⟨400, MSG_LEN⟩) ∧
    verify_password "OldP@ss1" alice.hashed_password = .ok true ∧
    update_user "s2" 1 { old_password := some "OldP@ss1", new_password := some "abc" } [alice] =
      .ok ({alice with hashed_password := hash_password "s2" "abc"},
           [{alice with hashed_password := hash_password "s2" "abc"}]) ∧
    hash_password "s2" "abc" ≠ alice.hashed_password := by decide

/-- C3 (divergence evidence): a validly signed, unexpired refresh token
whose subject `"ghost"` names no user makes `refresh_endpoint` fail with
HTTP 404 "User not found" (raised inside `get_user`), not with the 401
`CREDENTIALS_EXCEPTION`; the router's own 401 branch is unreachable. -/
theorem refresh_unknown_subject_not_found :
    decode_token 5 1000 (encode_token 5 500 "ghost" none REFRESH_TTL) =
      .ok ⟨"ghost", none, 500 + REFRESH_TTL⟩ ∧
    refresh_endpoint 5 1000 (encode_token 5 500 "ghost" none REFRESH_TTL) [alice] =
      .error (.http ⟨404, "User not found"⟩) ∧
    (⟨404, "User not found"⟩ : HTTPError) ≠ CREDENTIALS_EXCEPTION := by decide

end OPM
